import Mathlib

/-!
# kubectl-rook-ceph: exit of debug mode and the multus validation run

A shallow embedding of

* `pkg/debug/stop_debug.go` (`stopDebug`), and
* `pkg/multus/multus.go` (`validationTest.Run`, `startTestResources`,
  `cleanupTestResources`, `createTestConfigObject`, `startWebServer`,
  `loadTemplate`),

followed by theorems about them.

The Kubernetes API server is not part of the program.  Every API call is a
field of a client structure (`debug.Client`, `multus.Clientset`) that maps the
call's arguments and the current API state `σ` to a result and a new state; the
embedded functions thread the state through and record every call they issue
in a trace.  Theorems that quantify over the client therefore hold for every
behaviour of the API server.

Go strings are byte sequences; they are modelled as Lean strings (sequences of
characters).  The only text the code searches for is the ASCII text `-debug`,
for which searching by character and searching by byte agree on UTF-8 text.
-/

/-! ## Go runtime values shared by both packages -/

/-- A Go `error` as far as the program observes it: the text `Error()` returns
and whether `errors.IsNotFound` holds of it. -/
structure GoError where
  text : String
  isNotFound : Bool
  deriving DecidableEq, Repr

/-- The error built by `fmt.Errorf` from a format without `%w`: a fresh error
carrying only the rendered text. -/
def errorf (text : String) : GoError :=
  { text := text, isNotFound := false }

/-- The error built by `fmt.Errorf(context + "%w", err)`: the rendered text ends
with the wrapped error's text and the wrapped error stays visible to
`errors.IsNotFound`. -/
def wrapf (context : String) (err : GoError) : GoError :=
  { text := context ++ err.text, isNotFound := err.isNotFound }

/-- A `context.Context`: the background context, which is never canceled, or a
cancelable context together with its current state. -/
inductive Context
  | background
  | cancelable (canceled : Bool)
  deriving DecidableEq, Repr

/-- Whether the context has been canceled (`ctx.Err() != nil`). -/
def Context.isCanceled : Context → Bool
  | .background => false
  | .cancelable canceled => canceled

/-! ## Package `strings` -/

namespace strings

/-- `strings.HasSuffix`:
`len(s) >= len(suffix) && s[len(s)-len(suffix):] == suffix`. -/
def HasSuffix (s suffix : String) : Bool :=
  decide (s.length ≥ suffix.length) &&
    (s.data.drop (s.length - suffix.length) == suffix.data)

/-- The loop of `strings.Replace` for a non-empty `old` and no limit: scan from
the left, replace each occurrence of `old` by `new` and resume right after the
occurrence.  `skip` is the number of characters of the current occurrence that
still have to be passed over. -/
def replaceFrom (old new : List Char) : Nat → List Char → List Char
  | _, [] => []
  | skip + 1, _ :: cs => replaceFrom old new skip cs
  | 0, c :: cs =>
    if old.isPrefixOf (c :: cs) then new ++ replaceFrom old new (old.length - 1) cs
    else c :: replaceFrom old new 0 cs

/-- `strings.ReplaceAll(s, old, new)`, that is `strings.Replace(s, old, new, -1)`:
`s` itself when `old == new`; for an empty `old`, `new` inserted before every
character and at the end; otherwise every non-overlapping occurrence of `old`,
found from the left, replaced by `new`. -/
def ReplaceAll (s old new : String) : String :=
  if old = new then s
  else if old.data = [] then ⟨new.data ++ s.data.flatMap (fun c => c :: new.data)⟩
  else ⟨replaceFrom old.data new.data 0 s.data⟩

end strings

/-! ## Package `debug` (`pkg/debug/stop_debug.go`) -/

namespace debug

/-- The part of an `appsv1.Deployment` the code reads. -/
structure Deployment where
  Name : String
  Replicas : Int
  deriving DecidableEq, Repr

/-- One call issued against the cluster API by `stopDebug`, with its arguments. -/
inductive Call
  | GetDeployment (ctx : Context) (clusterNamespace name : String)
  | Delete (ctx : Context) (clusterNamespace name : String)
  | SetDeploymentScale (ctx : Context) (clusterNamespace name : String) (replicas : Int)
  deriving DecidableEq, Repr

/-- A call that changes the cluster: `Delete` and `SetDeploymentScale`. -/
def Call.isMutating : Call → Bool
  | .GetDeployment _ _ _ => false
  | .Delete _ _ _ => true
  | .SetDeploymentScale _ _ _ _ => true

/-- A `SetDeploymentScale` call. -/
def Call.isSetDeploymentScale : Call → Bool
  | .SetDeploymentScale _ _ _ _ => true
  | _ => false

/-- The three operations `stopDebug` performs on the cluster, over an API state
`σ`: the package's helpers `GetDeployment` and `SetDeploymentScale` (their
source is in another file of the package) and
`k8sclientset.AppsV1().Deployments(ns).Delete`. -/
structure Client (σ : Type) where
  GetDeployment : Context → String → String → σ → Except GoError Deployment × σ
  Delete : Context → String → String → σ → Option GoError × σ
  SetDeploymentScale : Context → String → String → Int → σ → Option GoError × σ

/-- What one execution of `stopDebug` leaves behind: the returned error (`none`
for `nil`), the API state and the calls issued, in order. -/
structure Outcome (σ : Type) where
  err : Option GoError
  state : σ
  calls : List Call

/-- `stopDebug` (stop_debug.go, lines 38-60).  The two `logging.Info` lines only
write to the log and are not recorded. -/
def stopDebug {σ : Type} (k8sclientset : Client σ) (ctx : Context)
    (clusterNamespace deploymentName : String) (s : σ) : Outcome σ :=
  let deploymentName :=
    if !strings.HasSuffix deploymentName "-debug" then deploymentName ++ "-debug"
    else deploymentName
  match k8sclientset.GetDeployment ctx clusterNamespace deploymentName s with
  | (.error err, s1) =>
    { err := some (errorf ("Missing mon or osd debug deployment name " ++ deploymentName
        ++ ". " ++ err.text ++ "\n")),
      state := s1,
      calls := [.GetDeployment ctx clusterNamespace deploymentName] }
  | (.ok debugDeployment, s1) =>
    match k8sclientset.Delete ctx clusterNamespace debugDeployment.Name s1 with
    | (err, s2) =>
      -- `err != nil && !kerrors.IsNotFound(err)`
      match err.filter (fun e => !e.isNotFound) with
      | some err =>
        { err := some (errorf ("Error deleting deployment " ++ debugDeployment.Name
            ++ ": " ++ err.text)),
          state := s2,
          calls := [.GetDeployment ctx clusterNamespace deploymentName,
                    .Delete ctx clusterNamespace debugDeployment.Name] }
      | none =>
        let original_deployment_name := strings.ReplaceAll deploymentName "-debug" ""
        match k8sclientset.SetDeploymentScale ctx clusterNamespace
            original_deployment_name 1 s2 with
        | (err, s3) =>
          { err := err,
            state := s3,
            calls := [.GetDeployment ctx clusterNamespace deploymentName,
                      .Delete ctx clusterNamespace debugDeployment.Name,
                      .SetDeploymentScale ctx clusterNamespace original_deployment_name 1] }

/-! ### A cluster of workloads -/

/-- The workloads of a cluster: the replica count of the workload `name` in
`namespace`, or `none` when no such workload exists. -/
abbrev Cluster := String → String → Option Int

/-- Modelled from the spec: `GetWorkload(namespace, name) -> Workload |
NotFoundError`, the fetch-by-name lookup behind the package's `GetDeployment`
helper, which is defined in another file of the package. -/
def Cluster.GetDeployment (_ctx : Context) (ns name : String) (s : Cluster) :
    Except GoError Deployment × Cluster :=
  match s ns name with
  | some replicas => (.ok { Name := name, Replicas := replicas }, s)
  | none => (.error { text := "deployments.apps \"" ++ name ++ "\" not found",
                      isNotFound := true }, s)

/-- Modelled from the spec: the cluster API's delete of a workload, which removes
the workload and answers with the distinguishable not-found condition when
there is none (the API server is an external collaborator). -/
def Cluster.Delete (_ctx : Context) (ns name : String) (s : Cluster) :
    Option GoError × Cluster :=
  match s ns name with
  | some _ => (none, fun ns' name' => if ns' = ns ∧ name' = name then none else s ns' name')
  | none => (some { text := "deployments.apps \"" ++ name ++ "\" not found",
                    isNotFound := true }, s)

/-- Modelled from the spec: `SetScale(namespace, name, replicas) -> success |
NotFoundError | UpdateError`, which sets the replica count of an existing
workload; the package's `SetDeploymentScale` helper is defined in another file
of the package. -/
def Cluster.SetDeploymentScale (_ctx : Context) (ns name : String) (replicas : Int)
    (s : Cluster) : Option GoError × Cluster :=
  match s ns name with
  | some _ =>
    (none, fun ns' name' => if ns' = ns ∧ name' = name then some replicas else s ns' name')
  | none => (some { text := "deployments.apps \"" ++ name ++ "\" not found",
                    isNotFound := true }, s)

/-- Modelled from the spec: the cluster API's create of a workload, refused when
a workload of that name exists already. -/
def Cluster.Create (ns name : String) (replicas : Int) (s : Cluster) :
    Except GoError Cluster :=
  match s ns name with
  | some _ => .error { text := "deployments.apps \"" ++ name ++ "\" already exists",
                       isNotFound := false }
  | none => .ok (fun ns' name' => if ns' = ns ∧ name' = name then some replicas else s ns' name')

/-- The client whose API state is a `Cluster`. -/
def clusterClient : Client Cluster :=
  { GetDeployment := Cluster.GetDeployment,
    Delete := Cluster.Delete,
    SetDeploymentScale := Cluster.SetDeploymentScale }

/-- Modelled from the spec: enter debug, which is defined in another file of the
package: "(a) create the Debug Workload (specification supplied by caller/collaborator);
(b) set original Workload replicas to 0", a failure of either step being
surfaced as an error.  The Debug Workload is named by the original name
suffixed with `-debug`; `debugReplicas` is the replica count of the supplied
specification. -/
def enterDebug (ctx : Context) (ns original : String) (debugReplicas : Int) (s : Cluster) :
    Except GoError Cluster :=
  match Cluster.Create ns (original ++ "-debug") debugReplicas s with
  | .error err => .error err
  | .ok s1 =>
    match Cluster.SetDeploymentScale ctx ns original 0 s1 with
    | (some err, _) => .error err
    | (none, s2) => .ok s2

end debug

/-! ## Package `encoding/json`, as far as `json.Marshal` of a struct goes -/

namespace json

/-- A field of a Go struct as `json.Marshal` meets it: the field's Go name and
the JSON encoding of its value. -/
structure Field where
  name : String
  encoded : String
  deriving DecidableEq, Repr

/-- A Go identifier is exported when its first character is an upper-case
letter.  Go tests for a Unicode upper-case letter; the test here is the one for
ASCII letters, which is the same test on the ASCII identifiers of this
program. -/
def isExported (name : String) : Bool :=
  match name.data with
  | c :: _ => c.isUpper
  | [] => false

/-- The encoding `json.Marshal` produces for a struct value without field tags:
an object with one member per exported field, keyed by the field's name, in
declaration order.  Unexported fields are skipped. -/
def marshalStruct (fields : List Field) : String :=
  "\x7b" ++ ",".intercalate
    ((fields.filter (fun f => isExported f.name)).map
      (fun f => "\"" ++ f.name ++ "\":" ++ f.encoded)) ++ "\x7d"

end json

/-! ## Package `multus` (`pkg/multus/multus.go`) -/

namespace multus

/-- The name of the config object that "owns" all other resources created for
the test. -/
def ownerConfigMapName : String := "multus-validation-test-config"

/-- The config object key that contains config for the validation test. -/
def ownerConfigMapConfigKey : String := "config"

/-- The `meta.OwnerReference` of the Kubernetes API. -/
structure OwnerReference where
  APIVersion : String
  Kind : String
  Name : String
  UID : String
  Controller : Option Bool := none
  BlockOwnerDeletion : Option Bool := none
  deriving DecidableEq, Repr

/-- The part of a `core.ConfigMap` the code reads or writes. -/
structure ConfigMap where
  APIVersion : String := ""
  Kind : String := ""
  Name : String := ""
  UID : String := ""
  OwnerReferences : List OwnerReference := []
  Immutable : Option Bool := none
  Data : List (String × String) := []
  deriving DecidableEq, Repr

/-- The part of an `apps.Deployment` the code reads or writes; `Spec` stands for
the rest of the manifest. -/
structure Deployment where
  Name : String := ""
  OwnerReferences : List OwnerReference := []
  Spec : String := ""
  deriving DecidableEq, Repr

/-- The `meta.DeletionPropagation` policies. -/
inductive DeletionPropagation
  | Orphan
  | Background
  | Foreground
  deriving DecidableEq, Repr

/-- The part of `meta.DeleteOptions` the code sets. -/
structure DeleteOptions where
  PropagationPolicy : Option DeletionPropagation := none
  deriving DecidableEq, Repr

/-- What one execution does that is visible from outside, in order: lines
written by `fmt.Println`, API calls with their arguments, and `time.Sleep`. -/
inductive Event
  | Println (line : String)
  | CreateConfigMap (ctx : Context) (clusterNamespace : String) (obj : ConfigMap)
  | CreateDeployment (ctx : Context) (clusterNamespace : String) (obj : Deployment)
  | DeleteConfigMap (ctx : Context) (clusterNamespace name : String) (opts : DeleteOptions)
  | Sleep (seconds : Nat)
  deriving DecidableEq, Repr

/-- A create call, of a config map or of a deployment. -/
def Event.isCreate : Event → Bool
  | .CreateConfigMap _ _ _ => true
  | .CreateDeployment _ _ _ => true
  | _ => false

/-- A delete call. -/
def Event.isDelete : Event → Bool
  | .DeleteConfigMap _ _ _ _ => true
  | _ => false

/-- The operations of `kubernetes.Clientset` the package calls, over an API
state `σ`: `CoreV1().ConfigMaps(ns).Create`, `AppsV1().Deployments(ns).Create`
and `CoreV1().ConfigMaps(ns).Delete`. -/
structure Clientset (σ : Type) where
  CreateConfigMap : Context → String → ConfigMap → σ → Except GoError ConfigMap × σ
  CreateDeployment : Context → String → Deployment → σ → Except GoError Deployment × σ
  DeleteConfigMap : Context → String → String → DeleteOptions → σ → Option GoError × σ

/-- The `validationTest` struct (multus.go, lines 54-59). -/
structure validationTest (σ : Type) where
  clientset : Clientset σ
  clusterNamespace : String
  multusPublicNetwork : String
  multusClusterNetwork : String

/-- `NewValidationTest` (multus.go, lines 61-74). -/
def NewValidationTest {σ : Type} (clientset : Clientset σ)
    (clusterNamespace multusPublicNetwork multusClusterNetwork : String) : validationTest σ :=
  { clientset := clientset,
    clusterNamespace := clusterNamespace,
    multusPublicNetwork := multusPublicNetwork,
    multusClusterNetwork := multusClusterNetwork }

/-- What the package takes from outside its own source: the two embedded
manifests, the template engine, the YAML decoder and the renderings done by
`fmt` and `encoding/json` for single values.  `yamlUnmarshal*` answers `none`
when the decoder leaves the target pointer `nil` (an empty document). -/
structure Collaborators (σ : Type) where
  NginxDeploymentTemplate : String
  NginxConfigTemplate : String
  templateParse : String → String → Option GoError
  templateExecute : String → String → validationTest σ → String × Option GoError
  yamlUnmarshalDeployment : String → Except GoError (Option Deployment)
  yamlUnmarshalConfigMap : String → Except GoError (Option ConfigMap)
  jsonString : String → String
  jsonClientset : Clientset σ → String
  sprintQuoted : String → String
  sprintValidationTest : validationTest σ → String
  sprintConfigMap : ConfigMap → String

/-- How a function call ends: a normal return without error, a returned error,
or a run-time panic. -/
inductive Exit
  | ok
  | error (err : GoError)
  | panic (message : String)
  deriving DecidableEq, Repr

/-- The result of a call together with the API state it leaves and the events it
produced, in order. -/
structure Step (σ : Type) (α : Type) where
  result : α
  state : σ
  trace : List Event

/-- The line `fmt.Println` writes: the operands separated by blanks, then a
newline.  The operands are not a format: a `%q` in them is written as it is. -/
def Println (operands : List String) : Event :=
  .Println (" ".intercalate operands ++ "\n")

/-- The run-time panic of a method call through a `nil` pointer. -/
def nilPointerDereference : String :=
  "runtime error: invalid memory address or nil pointer dereference"

/-- `json.Marshal(*vt)`: the struct's fields in declaration order, handed to the
struct encoder. -/
def validationTest.marshal {σ : Type} (env : Collaborators σ) (vt : validationTest σ) :
    Except GoError String :=
  .ok (json.marshalStruct
    [ { name := "clientset", encoded := env.jsonClientset vt.clientset },
      { name := "clusterNamespace", encoded := env.jsonString vt.clusterNamespace },
      { name := "multusPublicNetwork", encoded := env.jsonString vt.multusPublicNetwork },
      { name := "multusClusterNetwork", encoded := env.jsonString vt.multusClusterNetwork } ])

/-- `loadTemplate` (multus.go, lines 206-215): the bytes written and the error of
`Execute`, or no bytes and the wrapped error of `Parse`. -/
def loadTemplate {σ : Type} (env : Collaborators σ) (name templateFileText : String)
    (vt : validationTest σ) : String × Option GoError :=
  match env.templateParse name templateFileText with
  | some err =>
    ("", some (wrapf ("failed to parse template " ++ env.sprintQuoted name ++ ": ") err))
  | none => env.templateExecute name templateFileText vt

/-- The config object `createTestConfigObject` hands to `Create`
(multus.go, lines 140-149). -/
def ownerConfigObject (testConfig : String) : ConfigMap :=
  { Name := ownerConfigMapName,
    Immutable := some true,
    Data := [(ownerConfigMapConfigKey, testConfig)] }

/-- `createTestConfigObject` (multus.go, lines 134-166). -/
def validationTest.createTestConfigObject {σ : Type} (env : Collaborators σ)
    (vt : validationTest σ) (ctx : Context) (s : σ) :
    Step σ (Except GoError (List OwnerReference)) :=
  match vt.marshal env with
  | .error err =>
    { result := .error (wrapf ("failed to render validation test config ["
        ++ env.sprintValidationTest vt ++ "] to a string: ") err),
      state := s, trace := [] }
  | .ok testConfig =>
    let c := ownerConfigObject testConfig
    match vt.clientset.CreateConfigMap ctx vt.clusterNamespace c s with
    | (.error err, s1) =>
      { result := .error (wrapf ("failed to create validation test config object ["
          ++ env.sprintConfigMap c ++ "]: ") err),
        state := s1, trace := [.CreateConfigMap ctx vt.clusterNamespace c] }
    | (.ok configObject, s1) =>
      let refToConfigObject : OwnerReference :=
        { APIVersion := configObject.APIVersion,
          Kind := configObject.Kind,
          Name := configObject.Name,
          UID := configObject.UID,
          BlockOwnerDeletion := some true }
      { result := .ok [refToConfigObject],
        state := s1, trace := [.CreateConfigMap ctx vt.clusterNamespace c] }

/-- `startWebServer` (multus.go, lines 168-204).  `SetOwnerReferences` is a
method on the pointer the YAML decoder filled in; on a `nil` pointer it
panics. -/
def validationTest.startWebServer {σ : Type} (env : Collaborators σ) (vt : validationTest σ)
    (ctx : Context) (owners : List OwnerReference) (s : σ) : Step σ Exit :=
  match loadTemplate env "webServerDeployment" env.NginxDeploymentTemplate vt with
  | (_, some err) =>
    { result := .error (wrapf "failed to load deployment template: " err),
      state := s, trace := [] }
  | (t, none) =>
    match env.yamlUnmarshalDeployment t with
    | .error err =>
      { result := .error (wrapf "failed to unmarshal deployment template: " err),
        state := s, trace := [] }
    | .ok dep =>
      match loadTemplate env "configMapTemplate" env.NginxConfigTemplate vt with
      | (_, some err) =>
        { result := .error (wrapf "failed to load configmap template: " err),
          state := s, trace := [] }
      | (t, none) =>
        match env.yamlUnmarshalConfigMap t with
        | .error err =>
          { result := .error (wrapf "failed to unmarshal configmap template: " err),
            state := s, trace := [] }
        | .ok none =>
          { result := .panic nilPointerDereference, state := s, trace := [] }
        | .ok (some configMap) =>
          let configMap := { configMap with OwnerReferences := owners }
          match vt.clientset.CreateConfigMap ctx vt.clusterNamespace configMap s with
          | (.error err, s1) =>
            { result := .error (wrapf "failed to create web server config: " err),
              state := s1,
              trace := [.CreateConfigMap ctx vt.clusterNamespace configMap] }
          | (.ok _, s1) =>
            match dep with
            | none =>
              { result := .panic nilPointerDereference,
                state := s1,
                trace := [.CreateConfigMap ctx vt.clusterNamespace configMap] }
            | some dep =>
              let dep := { dep with OwnerReferences := owners }
              match vt.clientset.CreateDeployment ctx vt.clusterNamespace dep s1 with
              | (.error err, s2) =>
                { result := .error (wrapf "failed to create web server: " err),
                  state := s2,
                  trace := [.CreateConfigMap ctx vt.clusterNamespace configMap,
                            .CreateDeployment ctx vt.clusterNamespace dep] }
              | (.ok _, s2) =>
                { result := .ok,
                  state := s2,
                  trace := [.CreateConfigMap ctx vt.clusterNamespace configMap,
                            .CreateDeployment ctx vt.clusterNamespace dep] }

/-- `startTestResources` (multus.go, lines 94-106). -/
def validationTest.startTestResources {σ : Type} (env : Collaborators σ)
    (vt : validationTest σ) (ctx : Context) (s : σ) : Step σ Exit :=
  match vt.createTestConfigObject env ctx s with
  | { result := .error err, state := s1, trace := t1 } =>
    { result := .error (wrapf "failed to create validation test config object. " err),
      state := s1, trace := t1 }
  | { result := .ok testConfigAsOwner, state := s1, trace := t1 } =>
    match vt.startWebServer env ctx testConfigAsOwner s1 with
    | { result := .error err, state := s2, trace := t2 } =>
      { result := .error (wrapf "failed to start web server. " err),
        state := s2, trace := t1 ++ t2 }
    | { result := r, state := s2, trace := t2 } =>
      { result := r, state := s2, trace := t1 ++ t2 }

/-- `cleanupTestResources` (multus.go, lines 108-128).  It has no result: what it
leaves is the API state and its events. -/
def validationTest.cleanupTestResources {σ : Type} (vt : validationTest σ) (s : σ) :
    Step σ Unit :=
  -- need a clean, non-canceled context in case the test is canceled by ctrl-c
  let ctx := Context.background
  let announce := Println
    ["please wait for multus validation test resources to be cleaned up, or " ++
      "manually delete owner configmap %q", ownerConfigMapName]
  let deleteForeground := DeletionPropagation.Foreground
  let delOpts : DeleteOptions := { PropagationPolicy := some deleteForeground }
  match vt.clientset.DeleteConfigMap ctx vt.clusterNamespace ownerConfigMapName delOpts s with
  | (err, s1) =>
    let call := Event.DeleteConfigMap ctx vt.clusterNamespace ownerConfigMapName delOpts
    match err with
    | some err =>
      if !err.isNotFound then
        { result := (), state := s1,
          trace := [announce, call, Println
            ["failed to clean up multus validation test resources" ++
              "please manually delete owner configmap %q to perform cleanup",
             ownerConfigMapName]] }
      else { result := (), state := s1, trace := [announce, call] }
    | none => { result := (), state := s1, trace := [announce, call] }

/-- `Run` (multus.go, lines 76-92).  The deferred `cleanupTestResources` runs
when the body is left, whether by a return or by a panic, on the state the
body leaves. -/
def validationTest.Run {σ : Type} (env : Collaborators σ) (vt : validationTest σ)
    (ctx : Context) (s : σ) : Step σ Exit :=
  let banner :=
    [Println ["starting multus validation test with the following config:"],
     Println ["namespace:", vt.clusterNamespace],
     Println ["multus public network:", vt.multusPublicNetwork]]
  let body : Step σ Exit :=
    match vt.startTestResources env ctx s with
    | { result := .error _, state := s1, trace := t } =>
      { result := .error (errorf "failed to start multus validation test"),
        state := s1, trace := t }
    | { result := .panic message, state := s1, trace := t } =>
      { result := .panic message, state := s1, trace := t }
    | { result := .ok, state := s1, trace := t } =>
      { result := .ok, state := s1, trace := t ++ [.Sleep 30] }
  let cleanup := vt.cleanupTestResources body.state
  { result := body.result, state := cleanup.state,
    trace := banner ++ body.trace ++ cleanup.trace }

end multus

/-! ## Concrete clusters and collaborators used to instantiate the theorems -/

namespace debug

/-- A cluster in debug mode for the workload `osd0` of namespace `rook-ceph`:
the original scaled to 0 and its debug workload running. -/
def osd0InDebug : Cluster := fun ns name =>
  if ns = "rook-ceph" ∧ name = "osd0" then some 0
  else if ns = "rook-ceph" ∧ name = "osd0-debug" then some 1
  else none

/-- A cluster with the single workload `name` of namespace `rook-ceph`, running
three replicas. -/
def singleWorkload (name : String) : Cluster := fun ns name' =>
  if ns = "rook-ceph" ∧ name' = name then some 3 else none

/-- A cluster in debug mode for the workload `osd-debug-0` of namespace
`rook-ceph`: the original scaled to 0 and its debug workload running. -/
def osdDebug0InDebug : Cluster := fun ns name =>
  if ns = "rook-ceph" ∧ name = "osd-debug-0" then some 0
  else if ns = "rook-ceph" ∧ name = "osd-debug-0-debug" then some 1
  else none

/-- A client whose lookup always fails with a server error and whose mutating
calls always succeed, over a state that counts the mutating calls served. -/
def unreachableLookupClient : Client Nat :=
  { GetDeployment := fun _ _ _ n =>
      (.error { text := "the server is currently unable to handle the request",
                isNotFound := false }, n),
    Delete := fun _ _ _ n => (none, n + 1),
    SetDeploymentScale := fun _ _ _ _ n => (none, n + 1) }

/-- A client whose lookup succeeds and whose delete is refused, over a state
that counts the mutating calls served. -/
def forbiddenDeleteClient : Client Nat :=
  { GetDeployment := fun _ _ name n => (.ok { Name := name, Replicas := 1 }, n),
    Delete := fun _ _ name n =>
      (some { text := "deployments.apps \"" ++ name ++ "\" is forbidden",
              isNotFound := false }, n),
    SetDeploymentScale := fun _ _ _ _ n => (none, n + 1) }

end debug

namespace multus

/-- A clientset that accepts every call, over a state that counts the calls
served; a created config map comes back with its type and a UID filled in. -/
def acceptingClientset : Clientset Nat :=
  { CreateConfigMap := fun _ _ obj n =>
      (.ok { obj with APIVersion := "v1", Kind := "ConfigMap", UID := "uid-1" }, n + 1),
    CreateDeployment := fun _ _ obj n => (.ok obj, n + 1),
    DeleteConfigMap := fun _ _ _ _ n => (none, n + 1) }

/-- A clientset that accepts every create and refuses every delete. -/
def refusingDeleteClientset : Clientset Nat :=
  { CreateConfigMap := acceptingClientset.CreateConfigMap,
    CreateDeployment := acceptingClientset.CreateDeployment,
    DeleteConfigMap := fun _ _ name _ n =>
      (some { text := "configmaps \"" ++ name ++ "\" is forbidden", isNotFound := false }, n) }

/-- Collaborators that render every template to its own text and decode every
document to an object holding that text. -/
def plainCollaborators : Collaborators Nat :=
  { NginxDeploymentTemplate := "kind: Deployment",
    NginxConfigTemplate := "kind: ConfigMap",
    templateParse := fun _ _ => none,
    templateExecute := fun _ text _ => (text, none),
    yamlUnmarshalDeployment := fun t => .ok (some { Name := "web-server", Spec := t }),
    yamlUnmarshalConfigMap := fun t =>
      .ok (some { Name := "web-server-config", Data := [("nginx.conf", t)] }),
    jsonString := fun s => "\"" ++ s ++ "\"",
    jsonClientset := fun _ => "\x7b\x7d",
    sprintQuoted := fun s => "\"" ++ s ++ "\"",
    sprintValidationTest := fun vt => vt.clusterNamespace,
    sprintConfigMap := fun c => c.Name }

end multus
/-! ## Facts about the string helpers -/

theorem HasSuffix_iff (s suffix : String) :
    strings.HasSuffix s suffix = true ↔ suffix.data <:+ s.data := by
  unfold strings.HasSuffix
  simp only [Bool.and_eq_true, decide_eq_true_eq, beq_iff_eq, String.length]
  constructor
  · rintro ⟨_, h⟩
    rw [← h]
    exact List.drop_suffix _ _
  · intro h
    refine ⟨h.length_le, ?_⟩
    exact (List.suffix_iff_eq_drop.mp h).symm

theorem debug_data : "-debug".data = ['-', 'd', 'e', 'b', 'u', 'g'] := rfl

theorem not_isPrefixOf_straddle (o : List Char) (hne : o ≠ [])
    (h : ¬ (['-', 'd', 'e', 'b', 'u', 'g'] <:+: o)) :
    List.isPrefixOf ['-', 'd', 'e', 'b', 'u', 'g'] (o ++ ['-', 'd', 'e', 'b', 'u', 'g']) = false := by
  rcases o with _ | ⟨c1, _ | ⟨c2, _ | ⟨c3, _ | ⟨c4, _ | ⟨c5, _ | ⟨c6, t⟩⟩⟩⟩⟩⟩
  · exact absurd rfl hne
  · simp [List.isPrefixOf]
  · simp [List.isPrefixOf]
  · simp [List.isPrefixOf]
  · simp [List.isPrefixOf]
  · simp [List.isPrefixOf]
  · cases hp : List.isPrefixOf ['-', 'd', 'e', 'b', 'u', 'g']
        ((c1 :: c2 :: c3 :: c4 :: c5 :: c6 :: t) ++ ['-', 'd', 'e', 'b', 'u', 'g']) with
    | false => rfl
    | true =>
      exfalso
      apply h
      have hp' : List.isPrefixOf ['-', 'd', 'e', 'b', 'u', 'g']
          (c1 :: c2 :: c3 :: c4 :: c5 :: c6 :: t) = true := by
        simp only [List.isPrefixOf, List.cons_append, Bool.and_eq_true] at hp ⊢
        simp at hp ⊢
        exact hp
      exact (List.isPrefixOf_iff_prefix.mp hp').isInfix

theorem replaceFrom_append_debug (o : List Char)
    (h : ¬ (['-', 'd', 'e', 'b', 'u', 'g'] <:+: o)) :
    strings.replaceFrom ['-', 'd', 'e', 'b', 'u', 'g'] [] 0
      (o ++ ['-', 'd', 'e', 'b', 'u', 'g']) = o := by
  induction o with
  | nil => rfl
  | cons c cs ih =>
    have hs := not_isPrefixOf_straddle (c :: cs) (by simp) h
    have hcs : ¬ (['-', 'd', 'e', 'b', 'u', 'g'] <:+: cs) :=
      fun hi => h (hi.trans (List.suffix_cons c cs).isInfix)
    simp only [List.cons_append] at hs ⊢
    rw [strings.replaceFrom, if_neg (by simp [hs]), ih hcs]

theorem ReplaceAll_append_debug (o : String) (h : ¬ ("-debug".data <:+: o.data)) :
    strings.ReplaceAll (o ++ "-debug") "-debug" "" = o := by
  have h1 : ("-debug" : String) ≠ "" := by decide
  have h2 : ("-debug" : String).data ≠ [] := by decide
  unfold strings.ReplaceAll
  rw [if_neg h1, if_neg h2]
  rw [debug_data] at h
  have := replaceFrom_append_debug o.data h
  simp only [String.data_append, debug_data]
  show String.mk (strings.replaceFrom ['-', 'd', 'e', 'b', 'u', 'g'] [] 0 (o.data ++ ['-', 'd', 'e', 'b', 'u', 'g'])) = o
  rw [this]

theorem HasSuffix_append_debug (b : String) :
    strings.HasSuffix (b ++ "-debug") "-debug" = true := by
  rw [HasSuffix_iff, String.data_append]
  exact List.suffix_append _ _

theorem ne_append_debug (o : String) : o ≠ o ++ "-debug" := by
  intro h
  have := congrArg String.length h
  simp [String.length_append] at this
  revert this
  decide

/-! ## Exit of debug mode -/

open debug

theorem debugName_of_not_suffix (name : String) (h : ¬ ("-debug".data <:+ name.data)) :
    (if (!strings.HasSuffix name "-debug") = true then name ++ "-debug" else name)
      = name ++ "-debug" := by
  have : strings.HasSuffix name "-debug" = false := by
    cases hs : strings.HasSuffix name "-debug" with
    | false => rfl
    | true => exact absurd ((HasSuffix_iff _ _).mp hs) h
  simp [this]

theorem debugName_of_suffix (name : String) (h : "-debug".data <:+ name.data) :
    (if (!strings.HasSuffix name "-debug") = true then name ++ "-debug" else name) = name := by
  have : strings.HasSuffix name "-debug" = true := (HasSuffix_iff _ _).mpr h
  simp [this]

theorem debugName_eq (name : String) :
    (if (!strings.HasSuffix name "-debug") = true then name ++ "-debug" else name)
      = (if "-debug".data <:+ name.data then name else name ++ "-debug") := by
  by_cases h : "-debug".data <:+ name.data
  · rw [debugName_of_suffix name h, if_pos h]
  · rw [debugName_of_not_suffix name h, if_neg h]

/-- `stopDebug` after its first line, in terms of the derived debug name. -/
theorem stopDebug_unfold {σ : Type} (k : Client σ) (ctx : Context) (ns name : String) (s : σ) :
    stopDebug k ctx ns name s =
      (match k.GetDeployment ctx ns
          (if "-debug".data <:+ name.data then name else name ++ "-debug") s with
      | (.error err, s1) =>
        { err := some (errorf ("Missing mon or osd debug deployment name " ++
            (if "-debug".data <:+ name.data then name else name ++ "-debug")
            ++ ". " ++ err.text ++ "\n")),
          state := s1,
          calls := [.GetDeployment ctx ns
            (if "-debug".data <:+ name.data then name else name ++ "-debug")] }
      | (.ok d, s1) =>
        match k.Delete ctx ns d.Name s1 with
        | (err, s2) =>
          match err.filter (fun e => !e.isNotFound) with
          | some err =>
            { err := some (errorf ("Error deleting deployment " ++ d.Name ++ ": " ++ err.text)),
              state := s2,
              calls := [.GetDeployment ctx ns
                (if "-debug".data <:+ name.data then name else name ++ "-debug"),
                .Delete ctx ns d.Name] }
          | none =>
            match k.SetDeploymentScale ctx ns
                (strings.ReplaceAll
                  (if "-debug".data <:+ name.data then name else name ++ "-debug")
                  "-debug" "") 1 s2 with
            | (err, s3) =>
              { err := err,
                state := s3,
                calls := [.GetDeployment ctx ns
                  (if "-debug".data <:+ name.data then name else name ++ "-debug"),
                  .Delete ctx ns d.Name,
                  .SetDeploymentScale ctx ns
                    (strings.ReplaceAll
                      (if "-debug".data <:+ name.data then name else name ++ "-debug")
                      "-debug" "") 1] }) := by
  unfold stopDebug
  simp only [debugName_eq]

/-- C1: when the lookup of the derived debug name fails, exit-debug returns an
error whose text starts with "Missing mon or osd debug deployment name" and
the lookup is the only call it issues: no Delete and no SetDeploymentScale. -/
theorem stopDebug_missing_debug_deployment {σ : Type} (k : Client σ) (ctx : Context)
    (ns name : String) (s : σ) (err : GoError) (s1 : σ)
    (hlookup : k.GetDeployment ctx ns
      (if "-debug".data <:+ name.data then name else name ++ "-debug") s = (.error err, s1)) :
    (∃ e, (stopDebug k ctx ns name s).err = some e ∧
      "Missing mon or osd debug deployment name".data <+: e.text.data) ∧
    (stopDebug k ctx ns name s).calls =
      [Call.GetDeployment ctx ns
        (if "-debug".data <:+ name.data then name else name ++ "-debug")] ∧
    (∀ c ∈ (stopDebug k ctx ns name s).calls, c.isMutating = false) ∧
    (stopDebug k ctx ns name s).state = s1 := by
  rw [stopDebug_unfold, hlookup]
  refine ⟨⟨_, rfl, ?_⟩, rfl, ?_, rfl⟩
  · simp only [errorf, String.data_append, List.append_assoc]
    exact List.prefix_append _ _
  · intro c hc
    simp only [List.mem_singleton] at hc
    subst hc
    rfl

theorem stopDebug_missing_debug_deployment_witness :
    (∃ e, (stopDebug unreachableLookupClient .background "rook-ceph" "osd0" 0).err = some e ∧
      "Missing mon or osd debug deployment name".data <+: e.text.data) ∧
    (stopDebug unreachableLookupClient .background "rook-ceph" "osd0" 0).calls =
      [Call.GetDeployment .background "rook-ceph"
        (if "-debug".data <:+ "osd0".data then "osd0" else "osd0" ++ "-debug")] ∧
    (∀ c ∈ (stopDebug unreachableLookupClient .background "rook-ceph" "osd0" 0).calls,
      c.isMutating = false) ∧
    (stopDebug unreachableLookupClient .background "rook-ceph" "osd0" 0).state = 0 :=
  stopDebug_missing_debug_deployment unreachableLookupClient .background "rook-ceph" "osd0" 0
    { text := "the server is currently unable to handle the request", isNotFound := false } 0 rfl

/-- Exit-debug does the same on a name that does not end in "-debug" and on that
name followed by "-debug". -/
theorem stopDebug_congr_debugName {σ : Type} (k : Client σ) (ctx : Context)
    (ns b : String) (s : σ) (hb : ¬ ("-debug".data <:+ b.data)) :
    stopDebug k ctx ns b s = stopDebug k ctx ns (b ++ "-debug") s := by
  have h2 : "-debug".data <:+ (b ++ "-debug").data := by
    rw [String.data_append]; exact List.suffix_append _ _
  rw [stopDebug_unfold, stopDebug_unfold, if_neg hb, if_pos h2]

/-- C4: for a base name that does not end in "-debug", exit-debug given the
base name and exit-debug given the base name followed by "-debug" issue the
same calls with the same arguments, return the same result and leave the same
API state, whatever the API answers. -/
theorem stopDebug_name_normalisation {σ : Type} (k : Client σ) (ctx : Context)
    (ns b : String) (s : σ) (hb : ¬ ("-debug".data <:+ b.data)) :
    stopDebug k ctx ns b s = stopDebug k ctx ns (b ++ "-debug") s :=
  stopDebug_congr_debugName k ctx ns b s hb

theorem stopDebug_name_normalisation_witness :
    ¬ ("-debug".data <:+ "osd0".data) ∧
    stopDebug clusterClient .background "rook-ceph" "osd0" osd0InDebug =
      stopDebug clusterClient .background "rook-ceph" ("osd0" ++ "-debug") osd0InDebug :=
  ⟨by decide,
   stopDebug_name_normalisation clusterClient .background "rook-ceph" "osd0" osd0InDebug
     (by decide)⟩

/-- C6: once the lookup of the debug workload has succeeded, exit-debug issues a
SetDeploymentScale call exactly when Delete returned no error or a not-found
error, that call asks for 1 replica, and any other Delete error is returned
as "Error deleting deployment ..." with no SetDeploymentScale call issued. -/
theorem stopDebug_delete_gates_restore {σ : Type} (k : Client σ) (ctx : Context)
    (ns name : String) (s : σ) (d : Deployment) (s1 : σ) (delErr : Option GoError) (s2 : σ)
    (hget : k.GetDeployment ctx ns
      (if "-debug".data <:+ name.data then name else name ++ "-debug") s = (.ok d, s1))
    (hdel : k.Delete ctx ns d.Name s1 = (delErr, s2)) :
    ((∃ c ∈ (stopDebug k ctx ns name s).calls, c.isSetDeploymentScale = true) ↔
      (delErr = none ∨ ∃ e, delErr = some e ∧ e.isNotFound = true)) ∧
    (∀ ctx' ns' name' replicas,
      Call.SetDeploymentScale ctx' ns' name' replicas ∈ (stopDebug k ctx ns name s).calls →
        replicas = 1) ∧
    (∀ e, delErr = some e → e.isNotFound = false →
      (stopDebug k ctx ns name s).err =
        some (errorf ("Error deleting deployment " ++ d.Name ++ ": " ++ e.text)) ∧
      (stopDebug k ctx ns name s).calls =
        [Call.GetDeployment ctx ns
          (if "-debug".data <:+ name.data then name else name ++ "-debug"),
         Call.Delete ctx ns d.Name] ∧
      ∀ c ∈ (stopDebug k ctx ns name s).calls, c.isSetDeploymentScale = false) := by
  rw [stopDebug_unfold, hget]
  simp only [hdel]
  rcases delErr with _ | e
  · simp [Option.filter, Call.isSetDeploymentScale]
  · cases hnf : e.isNotFound <;>
      simp [Option.filter, hnf, Call.isSetDeploymentScale]

theorem stopDebug_delete_gates_restore_witness :
    ((∃ c ∈ (stopDebug forbiddenDeleteClient .background "rook-ceph" "osd0" 0).calls,
        c.isSetDeploymentScale = true) ↔
      ((some { text := "deployments.apps \"osd0-debug\" is forbidden", isNotFound := false }
          : Option GoError) = none ∨
        ∃ e, (some { text := "deployments.apps \"osd0-debug\" is forbidden",
                     isNotFound := false } : Option GoError) = some e ∧
          e.isNotFound = true)) ∧
    (∀ ctx' ns' name' replicas,
      Call.SetDeploymentScale ctx' ns' name' replicas ∈
        (stopDebug forbiddenDeleteClient .background "rook-ceph" "osd0" 0).calls →
        replicas = 1) ∧
    (∀ e, (some { text := "deployments.apps \"osd0-debug\" is forbidden",
                  isNotFound := false } : Option GoError) = some e → e.isNotFound = false →
      (stopDebug forbiddenDeleteClient .background "rook-ceph" "osd0" 0).err =
        some (errorf ("Error deleting deployment " ++
          (Deployment.mk "osd0-debug" 1).Name ++ ": " ++ e.text)) ∧
      (stopDebug forbiddenDeleteClient .background "rook-ceph" "osd0" 0).calls =
        [Call.GetDeployment .background "rook-ceph"
          (if "-debug".data <:+ "osd0".data then "osd0" else "osd0" ++ "-debug"),
         Call.Delete .background "rook-ceph" (Deployment.mk "osd0-debug" 1).Name] ∧
      ∀ c ∈ (stopDebug forbiddenDeleteClient .background "rook-ceph" "osd0" 0).calls,
        c.isSetDeploymentScale = false) :=
  stopDebug_delete_gates_restore forbiddenDeleteClient .background "rook-ceph" "osd0" 0
    { Name := "osd0-debug", Replicas := 1 } 0
    (some { text := "deployments.apps \"osd0-debug\" is forbidden", isNotFound := false }) 0
    (by rfl) (by rfl)

/-- C5: on the input "osd-debug-0", whose debug workload is
"osd-debug-0-debug", exit-debug deletes the debug workload and then restores
the scale of "osd-0", a name that followed by "-debug" is not the debug name;
the original workload "osd-debug-0" stays at 0 replicas and the call fails. -/
theorem stopDebug_restores_other_name :
    (stopDebug clusterClient .background "rook-ceph" "osd-debug-0" osdDebug0InDebug).calls =
      [Call.GetDeployment .background "rook-ceph" "osd-debug-0-debug",
       Call.Delete .background "rook-ceph" "osd-debug-0-debug",
       Call.SetDeploymentScale .background "rook-ceph" "osd-0" 1] ∧
    "osd-0" ++ "-debug" ≠ "osd-debug-0-debug" ∧
    (stopDebug clusterClient .background "rook-ceph" "osd-debug-0" osdDebug0InDebug).err =
      some { text := "deployments.apps \"osd-0\" not found", isNotFound := true } ∧
    (stopDebug clusterClient .background "rook-ceph" "osd-debug-0" osdDebug0InDebug).state
      "rook-ceph" "osd-debug-0" = some 0 ∧
    (stopDebug clusterClient .background "rook-ceph" "osd-debug-0" osdDebug0InDebug).state
      "rook-ceph" "osd-debug-0-debug" = none := by
  decide

/-- C3 as stated fails: on a cluster in debug mode for "osd0" the first
exit-debug succeeds and the second one returns an error. -/
theorem second_stopDebug_returns_error :
    (stopDebug clusterClient .background "rook-ceph" "osd0" osd0InDebug).err = none ∧
    (stopDebug clusterClient .background "rook-ceph" "osd0"
      (stopDebug clusterClient .background "rook-ceph" "osd0" osd0InDebug).state).err ≠ none := by
  decide

/-- C2 as stated fails: for the original workload "tools-debug" with 3 replicas,
entering debug mode succeeds and the following exit-debug called with the
original name returns an error, removes the original workload and leaves the
debug workload "tools-debug-debug" in place. -/
theorem round_trip_fails_for_suffixed_original :
    ∃ s1, enterDebug .background "rook-ceph" "tools-debug" 1 (singleWorkload "tools-debug")
        = .ok s1 ∧
      (stopDebug clusterClient .background "rook-ceph" "tools-debug" s1).err ≠ none ∧
      (stopDebug clusterClient .background "rook-ceph" "tools-debug" s1).state
        "rook-ceph" "tools-debug" ≠ some 1 ∧
      (stopDebug clusterClient .background "rook-ceph" "tools-debug" s1).state
        "rook-ceph" ("tools-debug" ++ "-debug") ≠ none := by
  refine ⟨_, rfl, ?_, ?_, ?_⟩ <;> decide

theorem suffix_free_of_occurrence_free (o : String) (h : ¬ ("-debug".data <:+: o.data)) :
    ¬ ("-debug".data <:+ o.data) :=
  fun hs => h hs.isInfix

/-- Exit-debug on a cluster where both the original workload and its debug
workload exist: the three calls succeed, the debug workload is removed and
the original is set to 1 replica. -/
theorem stopDebug_cluster_in_debug (ctx : Context) (ns original : String) (s : Cluster)
    (a b : Int) (hname : ¬ ("-debug".data <:+: original.data))
    (horig : s ns original = some a) (hdebug : s ns (original ++ "-debug") = some b) :
    (stopDebug clusterClient ctx ns original s).err = none ∧
    (stopDebug clusterClient ctx ns original s).state =
      (fun ns' name' =>
        if ns' = ns ∧ name' = original then some 1
        else if ns' = ns ∧ name' = original ++ "-debug" then none
        else s ns' name') ∧
    (stopDebug clusterClient ctx ns original s).calls =
      [Call.GetDeployment ctx ns (original ++ "-debug"),
       Call.Delete ctx ns (original ++ "-debug"),
       Call.SetDeploymentScale ctx ns original 1] := by
  have hne : original ≠ original ++ "-debug" := ne_append_debug original
  rw [stopDebug_unfold, if_neg (suffix_free_of_occurrence_free original hname),
    ReplaceAll_append_debug original hname]
  simp [clusterClient, Cluster.GetDeployment, Cluster.Delete, Cluster.SetDeploymentScale,
    hdebug, horig, hne, Option.filter]

/-- Exit-debug on a cluster where the debug workload does not exist: the lookup
fails, the error is returned and the cluster is left as it was. -/
theorem stopDebug_cluster_missing (ctx : Context) (ns original : String) (s : Cluster)
    (hname : ¬ ("-debug".data <:+: original.data))
    (hdebug : s ns (original ++ "-debug") = none) :
    (stopDebug clusterClient ctx ns original s).err =
      some (errorf ("Missing mon or osd debug deployment name " ++ (original ++ "-debug")
        ++ ". " ++ ("deployments.apps \"" ++ (original ++ "-debug") ++ "\" not found")
        ++ "\n")) ∧
    (stopDebug clusterClient ctx ns original s).state = s ∧
    (stopDebug clusterClient ctx ns original s).calls =
      [Call.GetDeployment ctx ns (original ++ "-debug")] := by
  rw [stopDebug_unfold, if_neg (suffix_free_of_occurrence_free original hname)]
  simp [clusterClient, Cluster.GetDeployment, hdebug]

/-- What a successful enter-debug leaves: the debug workload did not exist
before, the original did, and the new cluster has the debug workload and the
original at 0 replicas. -/
theorem enterDebug_ok (ctx : Context) (ns original : String) (debugReplicas : Int)
    (s s1 : Cluster) (h : enterDebug ctx ns original debugReplicas s = .ok s1) :
    s ns (original ++ "-debug") = none ∧ (s ns original).isSome = true ∧
    s1 ns original = some 0 ∧ s1 ns (original ++ "-debug") = some debugReplicas := by
  have hne : original ≠ original ++ "-debug" := ne_append_debug original
  unfold enterDebug Cluster.Create at h
  cases hd : s ns (original ++ "-debug") with
  | some r => simp [hd] at h
  | none =>
    simp only [hd] at h
    cases ho : s ns original with
    | none => simp [Cluster.SetDeploymentScale, ho, hne] at h
    | some r =>
      simp [Cluster.SetDeploymentScale, ho, hne] at h
      subst h
      simp [hne, hne.symm]

theorem enterDebug_succeeds (ctx : Context) (ns original : String) (debugReplicas n : Int)
    (s : Cluster) (horig : s ns original = some n)
    (hdebug : s ns (original ++ "-debug") = none) :
    ∃ s1, enterDebug ctx ns original debugReplicas s = .ok s1 := by
  have hne : original ≠ original ++ "-debug" := ne_append_debug original
  unfold enterDebug Cluster.Create
  simp [hdebug, Cluster.SetDeploymentScale, horig, hne]

/-- C2, amended: for every namespace, every original workload name in which
"-debug" does not occur and every replica count n, from a cluster where the
original workload has n replicas, enter-debug succeeds when no debug workload
exists yet, and after any successful enter-debug, exit-debug called with the
original name returns no error and leaves the original workload at exactly
1 replica and no workload named original+"-debug". -/
theorem enter_then_exit_round_trip (ctx : Context) (ns original : String)
    (n debugReplicas : Int) (s : Cluster)
    (hname : ¬ ("-debug".data <:+: original.data))
    (horig : s ns original = some n) :
    (s ns (original ++ "-debug") = none →
      ∃ s1, enterDebug ctx ns original debugReplicas s = .ok s1) ∧
    ∀ s1, enterDebug ctx ns original debugReplicas s = .ok s1 →
      (stopDebug clusterClient ctx ns original s1).err = none ∧
      (stopDebug clusterClient ctx ns original s1).state ns original = some 1 ∧
      (stopDebug clusterClient ctx ns original s1).state ns (original ++ "-debug") = none := by
  have hne : original ≠ original ++ "-debug" := ne_append_debug original
  refine ⟨enterDebug_succeeds ctx ns original debugReplicas n s horig, ?_⟩
  intro s1 h1
  obtain ⟨_, _, ho, hd⟩ := enterDebug_ok ctx ns original debugReplicas s s1 h1
  obtain ⟨he, hs, _⟩ := stopDebug_cluster_in_debug ctx ns original s1 0 debugReplicas hname ho hd
  refine ⟨he, ?_, ?_⟩
  · rw [hs]; simp
  · rw [hs]; simp [hne.symm]

theorem enter_then_exit_round_trip_witness :
    (singleWorkload "osd0" "rook-ceph" ("osd0" ++ "-debug") = none →
      ∃ s1, enterDebug .background "rook-ceph" "osd0" 1 (singleWorkload "osd0") = .ok s1) ∧
    ∀ s1, enterDebug .background "rook-ceph" "osd0" 1 (singleWorkload "osd0") = .ok s1 →
      (stopDebug clusterClient .background "rook-ceph" "osd0" s1).err = none ∧
      (stopDebug clusterClient .background "rook-ceph" "osd0" s1).state "rook-ceph" "osd0"
        = some 1 ∧
      (stopDebug clusterClient .background "rook-ceph" "osd0" s1).state "rook-ceph"
        ("osd0" ++ "-debug") = none :=
  enter_then_exit_round_trip .background "rook-ceph" "osd0" 3 1 (singleWorkload "osd0")
    (by decide) (by decide)

/-- C3, amended: for every namespace and every original workload name in which
"-debug" does not occur, on a cluster where the original workload and its
debug workload exist, the first exit-debug (given the original name or the
debug name) returns no error; the second one fails the lookup, returns the
"Missing mon or osd debug deployment name" error, issues no Delete and no
SetDeploymentScale call and leaves the cluster as the first call left it:
the original workload at 1 replica and no debug workload. -/
theorem stopDebug_twice (ctx : Context) (ns original name : String) (s : Cluster)
    (hname : ¬ ("-debug".data <:+: original.data))
    (hgiven : name = original ∨ name = original ++ "-debug")
    (horig : (s ns original).isSome = true)
    (hdebug : (s ns (original ++ "-debug")).isSome = true) :
    (stopDebug clusterClient ctx ns name s).err = none ∧
    (∃ e, (stopDebug clusterClient ctx ns name
        (stopDebug clusterClient ctx ns name s).state).err = some e ∧
      "Missing mon or osd debug deployment name".data <+: e.text.data) ∧
    (stopDebug clusterClient ctx ns name (stopDebug clusterClient ctx ns name s).state).calls =
      [Call.GetDeployment ctx ns (original ++ "-debug")] ∧
    (stopDebug clusterClient ctx ns name (stopDebug clusterClient ctx ns name s).state).state =
      (stopDebug clusterClient ctx ns name s).state ∧
    (stopDebug clusterClient ctx ns name (stopDebug clusterClient ctx ns name s).state).state
      ns original = some 1 ∧
    (stopDebug clusterClient ctx ns name (stopDebug clusterClient ctx ns name s).state).state
      ns (original ++ "-debug") = none := by
  have hne : original ≠ original ++ "-debug" := ne_append_debug original
  have hsame : ∀ t : Cluster, stopDebug clusterClient ctx ns name t =
      stopDebug clusterClient ctx ns original t := by
    intro t
    rcases hgiven with h | h
    · rw [h]
    · rw [h]
      exact (stopDebug_congr_debugName clusterClient ctx ns original t
        (suffix_free_of_occurrence_free original hname)).symm
  obtain ⟨a, ha⟩ := Option.isSome_iff_exists.mp horig
  obtain ⟨b, hb⟩ := Option.isSome_iff_exists.mp hdebug
  obtain ⟨he, hs, _⟩ := stopDebug_cluster_in_debug ctx ns original s a b hname ha hb
  have hgone : (stopDebug clusterClient ctx ns original s).state ns (original ++ "-debug")
      = none := by
    rw [hs]; simp [hne.symm]
  have hone : (stopDebug clusterClient ctx ns original s).state ns original = some 1 := by
    rw [hs]; simp
  obtain ⟨he2, hs2, hc2⟩ := stopDebug_cluster_missing ctx ns original
    (stopDebug clusterClient ctx ns original s).state hname hgone
  simp only [hsame]
  refine ⟨he, ⟨_, he2, ?_⟩, hc2, hs2, ?_, ?_⟩
  · simp only [errorf, String.data_append, List.append_assoc]
    exact List.prefix_append _ _
  · rw [hs2]; exact hone
  · rw [hs2]; exact hgone

theorem stopDebug_twice_witness :
    (stopDebug clusterClient .background "rook-ceph" "osd0" osd0InDebug).err = none ∧
    (∃ e, (stopDebug clusterClient .background "rook-ceph" "osd0"
        (stopDebug clusterClient .background "rook-ceph" "osd0" osd0InDebug).state).err
          = some e ∧
      "Missing mon or osd debug deployment name".data <+: e.text.data) ∧
    (stopDebug clusterClient .background "rook-ceph" "osd0"
        (stopDebug clusterClient .background "rook-ceph" "osd0" osd0InDebug).state).calls =
      [Call.GetDeployment .background "rook-ceph" ("osd0" ++ "-debug")] ∧
    (stopDebug clusterClient .background "rook-ceph" "osd0"
        (stopDebug clusterClient .background "rook-ceph" "osd0" osd0InDebug).state).state =
      (stopDebug clusterClient .background "rook-ceph" "osd0" osd0InDebug).state ∧
    (stopDebug clusterClient .background "rook-ceph" "osd0"
        (stopDebug clusterClient .background "rook-ceph" "osd0" osd0InDebug).state).state
      "rook-ceph" "osd0" = some 1 ∧
    (stopDebug clusterClient .background "rook-ceph" "osd0"
        (stopDebug clusterClient .background "rook-ceph" "osd0" osd0InDebug).state).state
      "rook-ceph" ("osd0" ++ "-debug") = none :=
  stopDebug_twice .background "rook-ceph" "osd0" "osd0" osd0InDebug
    (by decide) (Or.inl rfl) (by decide) (by decide)

/-! ## The multus validation run -/

open multus

/-- `json.Marshal(*vt)` is the empty object: no field of `validationTest` is
exported. -/
theorem marshal_eq {σ : Type} (env : Collaborators σ) (vt : validationTest σ) :
    vt.marshal env = .ok "\x7b\x7d" := by
  unfold validationTest.marshal json.marshalStruct
  have h : ∀ l : List json.Field, l = [] →
      "\x7b" ++ ",".intercalate (l.map (fun f => "\"" ++ f.name ++ "\":" ++ f.encoded)) ++ "\x7d"
        = "\x7b\x7d" := by
    intro l hl; subst hl; decide
  rw [h]
  simp [List.filter, json.isExported]

/-- The events of `createTestConfigObject`: one create of the owner config
object, and the owner reference built from what the API returned. -/
theorem createTestConfigObject_eq {σ : Type} (env : Collaborators σ) (vt : validationTest σ)
    (ctx : Context) (s : σ) :
    vt.createTestConfigObject env ctx s =
      (match vt.clientset.CreateConfigMap ctx vt.clusterNamespace
          (ownerConfigObject "\x7b\x7d") s with
      | (.error err, s1) =>
        { result := .error (wrapf ("failed to create validation test config object ["
            ++ env.sprintConfigMap (ownerConfigObject "\x7b\x7d") ++ "]: ") err),
          state := s1,
          trace := [.CreateConfigMap ctx vt.clusterNamespace (ownerConfigObject "\x7b\x7d")] }
      | (.ok configObject, s1) =>
        { result := .ok [{ APIVersion := configObject.APIVersion,
                           Kind := configObject.Kind,
                           Name := configObject.Name,
                           UID := configObject.UID,
                           Controller := none,
                           BlockOwnerDeletion := some true }],
          state := s1,
          trace := [.CreateConfigMap ctx vt.clusterNamespace
            (ownerConfigObject "\x7b\x7d")] }) := by
  unfold validationTest.createTestConfigObject
  rw [marshal_eq]

/-- Every event of `startWebServer` is a create call, in the run's namespace and
under the run's context, of an object whose owner references are `owners`. -/
theorem startWebServer_trace {σ : Type} (env : Collaborators σ) (vt : validationTest σ)
    (ctx : Context) (owners : List OwnerReference) (s : σ) :
    ∀ e ∈ (vt.startWebServer env ctx owners s).trace,
      (∃ obj, e = Event.CreateConfigMap ctx vt.clusterNamespace obj ∧
        obj.OwnerReferences = owners) ∨
      (∃ obj, e = Event.CreateDeployment ctx vt.clusterNamespace obj ∧
        obj.OwnerReferences = owners) := by
  unfold validationTest.startWebServer
  rcases loadTemplate env "webServerDeployment" env.NginxDeploymentTemplate vt
    with ⟨t1, _ | e1⟩ <;> dsimp only
  · rcases env.yamlUnmarshalDeployment t1 with e2 | dep <;> dsimp only
    · simp
    · rcases loadTemplate env "configMapTemplate" env.NginxConfigTemplate vt
        with ⟨t2, _ | e3⟩ <;> dsimp only
      · rcases env.yamlUnmarshalConfigMap t2 with e4 | _ | configMap <;> dsimp only
        · simp
        · simp
        · rcases vt.clientset.CreateConfigMap ctx vt.clusterNamespace
            { configMap with OwnerReferences := owners } s with ⟨e5 | created, s1⟩
            <;> dsimp only
          · simp
          · rcases dep with _ | dep <;> dsimp only
            · simp
            · rcases vt.clientset.CreateDeployment ctx vt.clusterNamespace
                { dep with OwnerReferences := owners } s1 with ⟨e6 | created2, s2⟩
                <;> simp
      · simp
  · simp

/-- The events of `startTestResources` are the owner's create followed by the
events of `startWebServer`, which are not there when the owner's create
failed. -/
theorem startTestResources_trace {σ : Type} (env : Collaborators σ) (vt : validationTest σ)
    (ctx : Context) (s : σ) :
    (vt.startTestResources env ctx s).trace =
      (vt.createTestConfigObject env ctx s).trace ++
        (match (vt.createTestConfigObject env ctx s).result with
         | .error _ => []
         | .ok owners =>
           (vt.startWebServer env ctx owners (vt.createTestConfigObject env ctx s).state).trace)
      := by
  unfold validationTest.startTestResources
  repeat' split
  all_goals simp_all

theorem startTestResources_creates_only {σ : Type} (env : Collaborators σ)
    (vt : validationTest σ) (ctx : Context) (s : σ) :
    ∀ e ∈ (vt.startTestResources env ctx s).trace, e.isCreate = true ∧ e.isDelete = false := by
  intro e he
  rw [startTestResources_trace, createTestConfigObject_eq] at he
  rcases List.mem_append.mp he with h | h
  · revert h
    split <;> (intro h; simp only [List.mem_singleton] at h; subst h; exact ⟨rfl, rfl⟩)
  · revert h
    split
    · intro h; simp at h
    · intro h
      rcases startWebServer_trace env vt ctx _ _ e h with ⟨obj, rfl, _⟩ | ⟨obj, rfl, _⟩
      · exact ⟨rfl, rfl⟩
      · exact ⟨rfl, rfl⟩

/-- The events of `cleanupTestResources`: the announcement, the delete call, and
the failure line when the delete returned an error other than not-found. -/
theorem cleanupTestResources_trace {σ : Type} (vt : validationTest σ) (s : σ) :
    (vt.cleanupTestResources s).trace =
      [Println ["please wait for multus validation test resources to be cleaned up, or " ++
          "manually delete owner configmap %q", ownerConfigMapName],
       Event.DeleteConfigMap Context.background vt.clusterNamespace ownerConfigMapName
          { PropagationPolicy := some DeletionPropagation.Foreground }] ++
      (match (vt.clientset.DeleteConfigMap Context.background vt.clusterNamespace
          ownerConfigMapName { PropagationPolicy := some DeletionPropagation.Foreground } s).1 with
       | some err =>
         if err.isNotFound then []
         else [Println ["failed to clean up multus validation test resources" ++
                 "please manually delete owner configmap %q to perform cleanup",
               ownerConfigMapName]]
       | none => []) := by
  rcases h : vt.clientset.DeleteConfigMap Context.background vt.clusterNamespace
      ownerConfigMapName { PropagationPolicy := some DeletionPropagation.Foreground } s
    with ⟨_ | err, s1⟩
  · simp [validationTest.cleanupTestResources, h]
  · cases hnf : err.isNotFound <;> simp [validationTest.cleanupTestResources, h, hnf]

/-- The events of `Run`: the banner, the events of `startTestResources` followed
by the sleep when it succeeded, then the events of the deferred cleanup. -/
theorem Run_trace {σ : Type} (env : Collaborators σ) (vt : validationTest σ)
    (ctx : Context) (s : σ) :
    (vt.Run env ctx s).trace =
      [Println ["starting multus validation test with the following config:"],
       Println ["namespace:", vt.clusterNamespace],
       Println ["multus public network:", vt.multusPublicNetwork]] ++
      ((vt.startTestResources env ctx s).trace ++
        (match (vt.startTestResources env ctx s).result with
         | .ok => [Event.Sleep 30]
         | _ => [])) ++
      (vt.cleanupTestResources (vt.startTestResources env ctx s).state).trace := by
  unfold validationTest.Run
  rcases vt.startTestResources env ctx s with ⟨_ | _ | _, s1, t⟩ <;> simp

/-- C7: whatever the API answers to the create calls and whatever the state of
the run's context, one execution of Run issues exactly one Delete call: for
the owner marker "multus-validation-test-config", in the run's namespace,
with foreground propagation, under the background context, which is never
canceled and differs from every canceled context; no create call follows
it. -/
theorem Run_teardown_exactly_once {σ : Type} (env : Collaborators σ) (vt : validationTest σ)
    (ctx : Context) (s : σ) :
    ∃ before after,
      (vt.Run env ctx s).trace =
        before ++
        [Event.DeleteConfigMap Context.background vt.clusterNamespace
          "multus-validation-test-config"
          { PropagationPolicy := some DeletionPropagation.Foreground }] ++
        after ∧
      (∀ e ∈ before, e.isDelete = false) ∧
      (∀ e ∈ after, e.isDelete = false ∧ e.isCreate = false) ∧
      Context.background.isCanceled = false ∧
      (ctx.isCanceled = true → Context.background ≠ ctx) := by
  refine ⟨[Println ["starting multus validation test with the following config:"],
       Println ["namespace:", vt.clusterNamespace],
       Println ["multus public network:", vt.multusPublicNetwork]] ++
      ((vt.startTestResources env ctx s).trace ++
        (match (vt.startTestResources env ctx s).result with
         | .ok => [Event.Sleep 30]
         | _ => [])) ++
      [Println ["please wait for multus validation test resources to be cleaned up, or " ++
          "manually delete owner configmap %q", ownerConfigMapName]],
    (match (vt.clientset.DeleteConfigMap Context.background vt.clusterNamespace
          ownerConfigMapName { PropagationPolicy := some DeletionPropagation.Foreground }
          (vt.startTestResources env ctx s).state).1 with
       | some err =>
         if err.isNotFound then []
         else [Println ["failed to clean up multus validation test resources" ++
                 "please manually delete owner configmap %q to perform cleanup",
               ownerConfigMapName]]
       | none => []), ?_, ?_, ?_, rfl, ?_⟩
  · rw [Run_trace, cleanupTestResources_trace]
    simp [ownerConfigMapName]
  · intro e he
    simp only [List.mem_append, List.mem_cons, List.mem_singleton, List.not_mem_nil,
      or_false] at he
    rcases he with ((h | h | h) | h | h) | h
    · subst h; rfl
    · subst h; rfl
    · subst h; rfl
    · exact (startTestResources_creates_only env vt ctx s e h).2
    · revert h
      split
      · intro h; simp only [List.mem_singleton] at h; subst h; rfl
      · intro h; simp at h
    · subst h; rfl
  · intro e he
    revert he
    split
    · split
      · intro h; simp at h
      · intro h; simp only [List.mem_singleton] at h; subst h; exact ⟨rfl, rfl⟩
    · intro h; simp at h
  · intro hc hEq
    rw [← hEq] at hc
    exact absurd hc (by decide)

/-- C8: cleanupTestResources has no result to return; it issues the Delete of the
owner marker exactly once; it writes the failure line telling to delete the
owner configmap by hand, which names "multus-validation-test-config", if and
only if the Delete returned an error that is not a not-found error; on a nil
or not-found result it writes only the announcement line before the call. -/
theorem cleanupTestResources_reports {σ : Type} (vt : validationTest σ) (s : σ)
    (err : Option GoError) (s1 : σ)
    (hdel : vt.clientset.DeleteConfigMap Context.background vt.clusterNamespace
      "multus-validation-test-config"
      { PropagationPolicy := some DeletionPropagation.Foreground } s = (err, s1)) :
    (vt.cleanupTestResources s).result = () ∧
    (Event.Println ("failed to clean up multus validation test resources" ++
        "please manually delete owner configmap %q to perform cleanup" ++
        " multus-validation-test-config\n") ∈ (vt.cleanupTestResources s).trace ↔
      ∃ e, err = some e ∧ e.isNotFound = false) ∧
    "multus-validation-test-config".data <:+:
      ("failed to clean up multus validation test resources" ++
        "please manually delete owner configmap %q to perform cleanup" ++
        " multus-validation-test-config\n").data ∧
    (vt.cleanupTestResources s).trace.filter Event.isDelete =
      [Event.DeleteConfigMap Context.background vt.clusterNamespace
        "multus-validation-test-config"
        { PropagationPolicy := some DeletionPropagation.Foreground }] ∧
    ((err = none ∨ ∃ e, err = some e ∧ e.isNotFound = true) →
      (vt.cleanupTestResources s).trace =
        [Event.Println ("please wait for multus validation test resources to be cleaned up, " ++
          "or manually delete owner configmap %q multus-validation-test-config\n"),
         Event.DeleteConfigMap Context.background vt.clusterNamespace
          "multus-validation-test-config"
          { PropagationPolicy := some DeletionPropagation.Foreground }]) := by
  have hdel' : vt.clientset.DeleteConfigMap Context.background vt.clusterNamespace
      ownerConfigMapName { PropagationPolicy := some DeletionPropagation.Foreground } s
      = (err, s1) := hdel
  have hannounce : Println ["please wait for multus validation test resources to be cleaned up, or " ++
          "manually delete owner configmap %q", ownerConfigMapName] =
      Event.Println ("please wait for multus validation test resources to be cleaned up, " ++
          "or manually delete owner configmap %q multus-validation-test-config\n") := by
    decide
  have hfailure : Println ["failed to clean up multus validation test resources" ++
                 "please manually delete owner configmap %q to perform cleanup",
               ownerConfigMapName] =
      Event.Println ("failed to clean up multus validation test resources" ++
        "please manually delete owner configmap %q to perform cleanup" ++
        " multus-validation-test-config\n") := by
    decide
  have hdiff : Event.Println ("failed to clean up multus validation test resources" ++
        "please manually delete owner configmap %q to perform cleanup" ++
        " multus-validation-test-config\n") ≠
      Event.Println ("please wait for multus validation test resources to be cleaned up, " ++
          "or manually delete owner configmap %q multus-validation-test-config\n") := by
    decide
  have hnamed : "multus-validation-test-config".data <:+:
      ("failed to clean up multus validation test resources" ++
        "please manually delete owner configmap %q to perform cleanup" ++
        " multus-validation-test-config\n").data :=
    ⟨("failed to clean up multus validation test resources" ++
        "please manually delete owner configmap %q to perform cleanup ").data, "\n".data,
      by decide⟩
  refine ⟨rfl, ?_, hnamed, ?_, ?_⟩
  all_goals rw [cleanupTestResources_trace, hdel', hannounce, hfailure]
  all_goals dsimp only
  · rcases err with _ | e
    · simp [hdiff]
    · cases hnf : e.isNotFound <;> simp [hdiff, hnf]
  · rcases err with _ | e
    · simp [Event.isDelete, List.filter, ownerConfigMapName]
    · cases hnf : e.isNotFound <;> simp [Event.isDelete, List.filter, ownerConfigMapName]
  · rintro (h | ⟨e, h, hnf⟩)
    · subst h; simp [ownerConfigMapName]
    · subst h; simp [hnf, ownerConfigMapName]

theorem cleanupTestResources_reports_witness :
    ((NewValidationTest refusingDeleteClientset "rook-ceph" "public-net" "cluster-net")
        |>.cleanupTestResources 0).result = () ∧
    (Event.Println ("failed to clean up multus validation test resources" ++
        "please manually delete owner configmap %q to perform cleanup" ++
        " multus-validation-test-config\n") ∈
        ((NewValidationTest refusingDeleteClientset "rook-ceph" "public-net" "cluster-net")
          |>.cleanupTestResources 0).trace ↔
      ∃ e, (some { text := "configmaps \"multus-validation-test-config\" is forbidden",
                   isNotFound := false } : Option GoError) = some e ∧ e.isNotFound = false) ∧
    "multus-validation-test-config".data <:+:
      ("failed to clean up multus validation test resources" ++
        "please manually delete owner configmap %q to perform cleanup" ++
        " multus-validation-test-config\n").data ∧
    ((NewValidationTest refusingDeleteClientset "rook-ceph" "public-net" "cluster-net")
        |>.cleanupTestResources 0).trace.filter Event.isDelete =
      [Event.DeleteConfigMap Context.background
        (NewValidationTest refusingDeleteClientset "rook-ceph" "public-net"
          "cluster-net").clusterNamespace
        "multus-validation-test-config"
        { PropagationPolicy := some DeletionPropagation.Foreground }] ∧
    (((some { text := "configmaps \"multus-validation-test-config\" is forbidden",
              isNotFound := false } : Option GoError) = none ∨
        ∃ e, (some { text := "configmaps \"multus-validation-test-config\" is forbidden",
                     isNotFound := false } : Option GoError) = some e ∧ e.isNotFound = true) →
      ((NewValidationTest refusingDeleteClientset "rook-ceph" "public-net" "cluster-net")
          |>.cleanupTestResources 0).trace =
        [Event.Println ("please wait for multus validation test resources to be cleaned up, " ++
          "or manually delete owner configmap %q multus-validation-test-config\n"),
         Event.DeleteConfigMap Context.background
          (NewValidationTest refusingDeleteClientset "rook-ceph" "public-net"
            "cluster-net").clusterNamespace
          "multus-validation-test-config"
          { PropagationPolicy := some DeletionPropagation.Foreground }]) :=
  cleanupTestResources_reports
    (NewValidationTest refusingDeleteClientset "rook-ceph" "public-net" "cluster-net") 0
    (some { text := "configmaps \"multus-validation-test-config\" is forbidden",
            isNotFound := false }) 0 (by rfl)

/-- The events of `startWebServer` when both manifests load and decode to an
object: the create of the config map stamped with `owners`, followed, when
that create succeeded, by the create of the deployment stamped with
`owners`. -/
theorem startWebServer_trace_loaded {σ : Type} (env : Collaborators σ) (vt : validationTest σ)
    (ctx : Context) (owners : List OwnerReference) (s : σ)
    (t1 t2 : String) (dep : multus.Deployment) (configMap : ConfigMap)
    (r2 : Except GoError ConfigMap) (s2 : σ) :
    loadTemplate env "webServerDeployment" env.NginxDeploymentTemplate vt = (t1, none) →
    env.yamlUnmarshalDeployment t1 = .ok (some dep) →
    loadTemplate env "configMapTemplate" env.NginxConfigTemplate vt = (t2, none) →
    env.yamlUnmarshalConfigMap t2 = .ok (some configMap) →
    vt.clientset.CreateConfigMap ctx vt.clusterNamespace
      { configMap with OwnerReferences := owners } s = (r2, s2) →
    (vt.startWebServer env ctx owners s).trace =
      Event.CreateConfigMap ctx vt.clusterNamespace { configMap with OwnerReferences := owners }
        :: (match r2 with
            | .error _ => []
            | .ok _ => [Event.CreateDeployment ctx vt.clusterNamespace
                          { dep with OwnerReferences := owners }]) := by
  intro h1 h2 h3 h4 h5
  unfold validationTest.startWebServer
  rw [h1]; dsimp only
  rw [h2]; dsimp only
  rw [h3]; dsimp only
  rw [h4]; dsimp only
  simp only [h5]
  rcases r2 with e | created
  · rfl
  · dsimp only
    rcases vt.clientset.CreateDeployment ctx vt.clusterNamespace
      { dep with OwnerReferences := owners } s2 with ⟨e | created2, s3⟩ <;> rfl

/-- C9: when the create of the owner marker succeeds, createTestConfigObject
returns exactly one owner reference, carrying the API version, kind, name and
UID of the object the API returned and block-owner-deletion set; the marker's
create is the first call of startTestResources and every call after it is a
create of a config map or of a deployment whose owner references are exactly
that list; and when both web-server manifests load and decode, the calls
after the marker's create are exactly the create of the web-server config
map stamped with that list and, once that create succeeded, the create of
the web-server deployment stamped with that list.  When the create of the
marker fails, the marker's create is the only call. -/
theorem startTestResources_owner_references {σ : Type} (env : Collaborators σ)
    (vt : validationTest σ) (ctx : Context) (s : σ) (testConfig : String)
    (r : Except GoError ConfigMap) (s1 : σ)
    (hconfig : vt.marshal env = .ok testConfig)
    (hcreate : vt.clientset.CreateConfigMap ctx vt.clusterNamespace
      (ownerConfigObject testConfig) s = (r, s1)) :
    match r with
    | .error _ =>
      (∃ err, (vt.createTestConfigObject env ctx s).result = .error err) ∧
      (vt.startTestResources env ctx s).trace =
        [Event.CreateConfigMap ctx vt.clusterNamespace (ownerConfigObject testConfig)]
    | .ok created =>
      (vt.createTestConfigObject env ctx s).result =
        .ok [{ APIVersion := created.APIVersion, Kind := created.Kind, Name := created.Name,
               UID := created.UID, Controller := none, BlockOwnerDeletion := some true }] ∧
      (∃ dependents,
        (vt.startTestResources env ctx s).trace =
          Event.CreateConfigMap ctx vt.clusterNamespace (ownerConfigObject testConfig)
            :: dependents ∧
        ∀ e ∈ dependents,
          (∃ obj, e = Event.CreateConfigMap ctx vt.clusterNamespace obj ∧
            obj.OwnerReferences =
              [{ APIVersion := created.APIVersion, Kind := created.Kind,
                 Name := created.Name, UID := created.UID, Controller := none,
                 BlockOwnerDeletion := some true }]) ∨
          (∃ obj, e = Event.CreateDeployment ctx vt.clusterNamespace obj ∧
            obj.OwnerReferences =
              [{ APIVersion := created.APIVersion, Kind := created.Kind,
                 Name := created.Name, UID := created.UID, Controller := none,
                 BlockOwnerDeletion := some true }])) ∧
      (∀ (t1 t2 : String) (dep : multus.Deployment) (configMap : ConfigMap)
          (r2 : Except GoError ConfigMap) (s2 : σ),
        loadTemplate env "webServerDeployment" env.NginxDeploymentTemplate vt = (t1, none) →
        env.yamlUnmarshalDeployment t1 = .ok (some dep) →
        loadTemplate env "configMapTemplate" env.NginxConfigTemplate vt = (t2, none) →
        env.yamlUnmarshalConfigMap t2 = .ok (some configMap) →
        vt.clientset.CreateConfigMap ctx vt.clusterNamespace
          { configMap with OwnerReferences :=
              [{ APIVersion := created.APIVersion, Kind := created.Kind,
                 Name := created.Name, UID := created.UID, Controller := none,
                 BlockOwnerDeletion := some true }] } s1 = (r2, s2) →
        (vt.startTestResources env ctx s).trace =
          Event.CreateConfigMap ctx vt.clusterNamespace (ownerConfigObject testConfig)
            :: Event.CreateConfigMap ctx vt.clusterNamespace
                { configMap with OwnerReferences :=
                    [{ APIVersion := created.APIVersion, Kind := created.Kind,
                       Name := created.Name, UID := created.UID, Controller := none,
                       BlockOwnerDeletion := some true }] }
            :: (match r2 with
                | .error _ => []
                | .ok _ =>
                  [Event.CreateDeployment ctx vt.clusterNamespace
                    { dep with OwnerReferences :=
                        [{ APIVersion := created.APIVersion, Kind := created.Kind,
                           Name := created.Name, UID := created.UID, Controller := none,
                           BlockOwnerDeletion := some true }] }])) := by
  have ht : testConfig = "\x7b\x7d" := by
    rw [marshal_eq] at hconfig
    exact (Except.ok.inj hconfig).symm
  subst ht
  rcases r with err | created
  · dsimp only
    rw [startTestResources_trace, createTestConfigObject_eq, hcreate]
    exact ⟨⟨_, rfl⟩, rfl⟩
  · dsimp only
    rw [startTestResources_trace, createTestConfigObject_eq, hcreate]
    refine ⟨rfl, ⟨_, rfl, ?_⟩, ?_⟩
    · intro e he
      exact startWebServer_trace env vt ctx _ _ e he
    · intro t1 t2 dep configMap r2 s2 h1 h2 h3 h4 h5
      dsimp only
      rw [startWebServer_trace_loaded env vt ctx _ s1 t1 t2 dep configMap r2 s2 h1 h2 h3 h4 h5]
      rfl

theorem startTestResources_owner_references_witness :
    ((NewValidationTest acceptingClientset "rook-ceph" "public-net" "cluster-net")
      |>.createTestConfigObject plainCollaborators (Context.cancelable false) 0).result =
      .ok [{ APIVersion := "v1", Kind := "ConfigMap", Name := "multus-validation-test-config",
             UID := "uid-1", Controller := none, BlockOwnerDeletion := some true }] ∧
    ((NewValidationTest acceptingClientset "rook-ceph" "public-net" "cluster-net")
      |>.startTestResources plainCollaborators (Context.cancelable false) 0).trace =
      [Event.CreateConfigMap (Context.cancelable false) "rook-ceph"
        { Name := "multus-validation-test-config", Immutable := some true,
          Data := [("config", "\x7b\x7d")] },
       Event.CreateConfigMap (Context.cancelable false) "rook-ceph"
        { Name := "web-server-config", Data := [("nginx.conf", "kind: ConfigMap")],
          OwnerReferences :=
            [{ APIVersion := "v1", Kind := "ConfigMap", Name := "multus-validation-test-config",
               UID := "uid-1", Controller := none, BlockOwnerDeletion := some true }] },
       Event.CreateDeployment (Context.cancelable false) "rook-ceph"
        { Name := "web-server", Spec := "kind: Deployment",
          OwnerReferences :=
            [{ APIVersion := "v1", Kind := "ConfigMap", Name := "multus-validation-test-config",
               UID := "uid-1", Controller := none, BlockOwnerDeletion := some true }] }] :=
  have h := startTestResources_owner_references plainCollaborators
    (NewValidationTest acceptingClientset "rook-ceph" "public-net" "cluster-net")
    (Context.cancelable false) 0 "\x7b\x7d"
    (.ok { Name := "multus-validation-test-config", Immutable := some true,
           Data := [("config", "\x7b\x7d")], APIVersion := "v1", Kind := "ConfigMap",
           UID := "uid-1" }) 1
    (by rfl) (by rfl)
  ⟨h.1,
   h.2.2 "kind: Deployment" "kind: ConfigMap"
     { Name := "web-server", Spec := "kind: Deployment" }
     { Name := "web-server-config", Data := [("nginx.conf", "kind: ConfigMap")] }
     (.ok { Name := "web-server-config", Data := [("nginx.conf", "kind: ConfigMap")],
            OwnerReferences :=
              [{ APIVersion := "v1", Kind := "ConfigMap",
                 Name := "multus-validation-test-config",
                 UID := "uid-1", Controller := none, BlockOwnerDeletion := some true }],
            APIVersion := "v1", Kind := "ConfigMap", UID := "uid-1" }) 2
     (by rfl) (by rfl) (by rfl) (by rfl) (by rfl)⟩

/-- C10: two runs that differ in namespace and in both network identifiers hand
the same owner marker to the API: named "multus-validation-test-config",
immutable, and with the data "config" -> the empty JSON object, which holds
neither the namespace nor a network identifier. -/
theorem owner_marker_data_is_empty_object {σ : Type} (env : Collaborators σ)
    (clientset : Clientset σ) (ctx : Context) (s : σ) :
    ((NewValidationTest clientset "rook-ceph" "public-net" "cluster-net")
        |>.createTestConfigObject env ctx s).trace =
      [Event.CreateConfigMap ctx "rook-ceph"
        { Name := "multus-validation-test-config", Immutable := some true,
          Data := [("config", "\x7b\x7d")] }] ∧
    ((NewValidationTest clientset "other-namespace" "other-public" "other-cluster")
        |>.createTestConfigObject env ctx s).trace =
      [Event.CreateConfigMap ctx "other-namespace"
        { Name := "multus-validation-test-config", Immutable := some true,
          Data := [("config", "\x7b\x7d")] }] := by
  constructor
  · rw [createTestConfigObject_eq]
    split <;> rfl
  · rw [createTestConfigObject_eq]
    split <;> rfl
